import Mathlib

/-!
Shallow embedding of the smartbackend irrigation server (src/server.js).

The server keeps in-memory state: the latest sensor reading, a bounded
history of readings, and the timestamp of the last pump command.  An MQTT
message handler parses inbound JSON, records the reading, and runs the
hysteresis automation; an HTTP handler serves manual pump commands; a
timer refreshes a weather snapshot.

Modelling conventions:
- Timestamps are integers (milliseconds, as produced by Date.now()).
- JavaScript numbers are modelled as rationals.  Payload field values
  for temperature, humidity and the manual action are modelled by the
  JSON value type JVal (null, booleans, numbers, strings; arrays and
  objects in field position are outside the modelled domain).
- soilMoisture is modelled as an optional rational (a JSON number, or
  the field absent); pumpStatus as an optional string.  These cover the
  payload shapes the inbound channel carries.
- A failed JSON.parse of the whole message is modelled by the parsed
  payload being none.
- The publish callback outcome is passed in as a boolean (publishOk);
  the handler is the synchronous composition the specification
  describes: the timestamp bookkeeping a successful or failed publish
  callback performs is applied to the resulting state.
-/

/-- Millisecond timestamps, as produced by Date.now(). -/
abbrev Time := Int

/-- JSON values appearing in payload fields (arrays/objects omitted). -/
inductive JVal where
  | jnull : JVal
  | jbool (b : Bool) : JVal
  | jnum (q : ℚ) : JVal
  | jstr (s : String) : JVal
deriving DecidableEq, Repr

/-- JavaScript truthiness of a JSON value. -/
def JVal.truthy : JVal → Bool
  | .jnull => false
  | .jbool b => b
  | .jnum q => q != 0
  | .jstr s => s != ""

/-- Result of a JavaScript numeric parse: a number or NaN. -/
inductive JNum where
  | nan : JNum
  | num (q : ℚ) : JNum
deriving DecidableEq, Repr

/-- Truncation toward zero, as JavaScript parseInt applies to the decimal
digits before the point. -/
def ratTrunc (q : ℚ) : ℚ := if 0 ≤ q then (⌊q⌋ : ℚ) else (⌈q⌉ : ℚ)

/-- Value of a digit character. -/
def digitVal (c : Char) : ℕ := c.toNat - 48

/-- Natural number denoted by a list of decimal digit characters. -/
def digitsToNat (cs : List Char) : ℕ :=
  cs.foldl (fun n c => n * 10 + digitVal c) 0

/-- Parse a full character list as a signed decimal numeral
(optional sign, digits, optional point and fraction digits; at least one
digit overall).  Exponent and hexadecimal forms are outside the modelled
domain. -/
def parseDecimalChars (cs : List Char) : Option ℚ :=
  let signAndRest : ℚ × List Char :=
    match cs with
    | '-' :: rest => (-1, rest)
    | '+' :: rest => (1, rest)
    | _ => (1, cs)
  let sign := signAndRest.1
  let body := signAndRest.2
  let intPart := body.takeWhile Char.isDigit
  let rest := body.dropWhile Char.isDigit
  match rest with
  | [] =>
      if intPart.isEmpty then none
      else some (sign * (digitsToNat intPart : ℚ))
  | '.' :: frac =>
      if frac.all Char.isDigit && !(intPart.isEmpty && frac.isEmpty) then
        some (sign * ((digitsToNat intPart : ℚ) +
          (digitsToNat frac : ℚ) / (10 ^ frac.length : ℚ)))
      else none
  | _ => none

/-- Parse a whole trimmed string as a decimal number. -/
def parseDecimal (s : String) : Option ℚ :=
  parseDecimalChars s.trim.toList

/-- Model of JavaScript parseFloat on a JSON field value: numbers pass
through; strings parse as decimals (the prefix-parsing JavaScript applies
to strings with trailing garbage, and the Infinity literal, are outside
the modelled domain); everything else is NaN. -/
def jsParseFloat : JVal → JNum
  | .jnum q => .num q
  | .jstr s =>
      match parseDecimal s with
      | some q => .num q
      | none => .nan
  | .jnull => .nan
  | .jbool _ => .nan

/-- Model of JavaScript parseInt on a JSON field value: truncation toward
zero of the decimal value (exponent-notation and hexadecimal edge cases
are outside the modelled domain); non-numeric values give NaN. -/
def jsParseInt : JVal → JNum
  | .jnum q => .num (ratTrunc q)
  | .jstr s =>
      match parseDecimal s with
      | some q => .num (ratTrunc q)
      | none => .nan
  | .jnull => .nan
  | .jbool _ => .nan

/-- A successfully JSON-parsed inbound sensor payload.  A missing field
is none (reads as undefined in the handler). -/
structure Payload where
  soilMoisture : Option ℚ
  pumpStatus : Option String
  temperature : Option JVal
  humidity : Option JVal
deriving DecidableEq, Repr

/-- A stored sensor reading (the shape of latestSensorData).  Before the
first message, soilMoisture, temperature, humidity and timestamp are
null. -/
structure Reading where
  soilMoisture : Option ℚ
  pumpStatus : String
  temperature : Option JNum
  humidity : Option JNum
  timestamp : Option Time
deriving DecidableEq, Repr

/-- The initial latestSensorData object (server.js line 110). -/
def initialSensorData : Reading :=
  { soilMoisture := none, pumpStatus := "OFF", temperature := none,
    humidity := none, timestamp := none }

/-- The reading the message handler builds from a parsed payload
(server.js lines 168-174): pumpStatus via the JavaScript or-default
(a falsy value, absent or the empty string, falls back to UNKNOWN),
temperature via parseFloat when the field is present (null otherwise),
humidity via parseInt when present, timestamp = ingestion time. -/
def mkReading (data : Payload) (now : Time) : Reading :=
  { soilMoisture := data.soilMoisture
    pumpStatus :=
      match data.pumpStatus with
      | some s => if s == "" then "UNKNOWN" else s
      | none => "UNKNOWN"
    temperature := data.temperature.map jsParseFloat
    humidity := data.humidity.map jsParseInt
    timestamp := some now }

/-- Topic the server subscribes to for sensor data. -/
def SENSOR_DATA_TOPIC : String := "farm/plot1/sensor_data"

/-- The automation command turning the pump on. -/
def pumpOnCommand : String := "TURN_PUMP_ON"

/-- The automation command turning the pump off. -/
def pumpOffCommand : String := "TURN_PUMP_OFF"

/-- The empty string (a falsy value in JavaScript). -/
def emptyString : String := ""

/-- Moisture above this is dry: turn the pump on. -/
def MOISTURE_DRY_THRESHOLD : ℚ := 700

/-- Moisture below this is wet: turn the pump off. -/
def MOISTURE_WET_THRESHOLD : ℚ := 400

/-- Cooldown between pump commands, in seconds. -/
def PUMP_COOLDOWN_SECONDS : ℚ := 30

/-- The mutable server state the handlers touch. -/
structure ServerState where
  latestSensorData : Reading
  historicalData : List Reading
  lastPumpCommandTime : Time
deriving DecidableEq, Repr

/-- The state at process start (server.js lines 110-118). -/
def initialState : ServerState :=
  { latestSensorData := initialSensorData, historicalData := [],
    lastPumpCommandTime := 0 }

/-- The cooldown gate (server.js line 187):
(currentTime - lastPumpCommandTime) / 1000 >= PUMP_COOLDOWN_SECONDS. -/
def canSendPumpCommand (currentTime lastTime : Time) : Bool :=
  decide ((((currentTime : ℚ) - (lastTime : ℚ)) / 1000) ≥ PUMP_COOLDOWN_SECONDS)

/-- JavaScript strict-greater on an optional number against a constant:
an absent value (undefined) compares false. -/
def optGT (m : Option ℚ) (t : ℚ) : Bool :=
  match m with
  | some x => decide (x > t)
  | none => false

/-- JavaScript strict-less on an optional number against a constant:
an absent value (undefined) compares false. -/
def optLT (m : Option ℚ) (t : ℚ) : Bool :=
  match m with
  | some x => decide (x < t)
  | none => false

/-- Append a reading to the history, evicting the oldest entry when the
length exceeds 200 (server.js lines 176-179: push, then shift). -/
def recordHistory (hist : List Reading) (r : Reading) : List Reading :=
  let pushed := hist ++ [r]
  if 200 < pushed.length then pushed.tail else pushed

/-- History contents after recording a whole sequence of readings,
starting from the empty buffer. -/
def historyAfter (rs : List Reading) : List Reading :=
  rs.foldl recordHistory []

/-- The MQTT message handler (server.js lines 161-219).  Input: current
state, topic, the JSON.parse outcome (none when parsing threw; the catch
block then logs and changes nothing), the current time, and the outcome
the publish callback will report.  Output: the new state and the list of
command payloads published (the command field of each stringified
object). -/
def handleMessage (st : ServerState) (topic : String) (parsed : Option Payload)
    (now : Time) (publishOk : Bool) : ServerState × List JVal :=
  match parsed with
  | none => (st, [])
  | some data =>
      if topic == SENSOR_DATA_TOPIC then
        let reading := mkReading data now
        let hist := recordHistory st.historicalData reading
        let currentSoilMoisture := reading.soilMoisture
        let currentPumpStatus := reading.pumpStatus
        if canSendPumpCommand now st.lastPumpCommandTime then
          if optGT currentSoilMoisture MOISTURE_DRY_THRESHOLD &&
              currentPumpStatus == "OFF" then
            ({ latestSensorData := reading, historicalData := hist,
               lastPumpCommandTime :=
                 if publishOk then now else st.lastPumpCommandTime },
             [JVal.jstr pumpOnCommand])
          else if optLT currentSoilMoisture MOISTURE_WET_THRESHOLD &&
              currentPumpStatus == "ON" then
            ({ latestSensorData := reading, historicalData := hist,
               lastPumpCommandTime :=
                 if publishOk then now else st.lastPumpCommandTime },
             [JVal.jstr pumpOffCommand])
          else
            ({ latestSensorData := reading, historicalData := hist,
               lastPumpCommandTime := st.lastPumpCommandTime }, [])
        else
          ({ latestSensorData := reading, historicalData := hist,
             lastPumpCommandTime := st.lastPumpCommandTime }, [])
      else (st, [])

/-- A sequence of inbound message events (parse outcome, arrival time,
publish outcome) processed one at a time in arrival order, accumulating
the commands published. -/
def handleMessages (st : ServerState) :
    List (Option Payload × Time × Bool) → ServerState × List JVal
  | [] => (st, [])
  | ev :: evs =>
      let r := handleMessage st SENSOR_DATA_TOPIC ev.1 ev.2.1 ev.2.2
      let rest := handleMessages r.1 evs
      (rest.1, r.2 ++ rest.2)

/-- The commands the message handler publishes for one parsed sensor
payload. -/
def automationCmds (st : ServerState) (p : Payload) (now : Time)
    (ok : Bool) : List JVal :=
  (handleMessage st SENSOR_DATA_TOPIC (some p) now ok).2

/-- An HTTP response of the command endpoint. -/
structure ApiResponse where
  status : ℕ
  success : Bool
  message : String
deriving DecidableEq, Repr

/-- The POST /api/command handler (server.js lines 249-266).  The action
is the destructured body field (none when absent).  A truthy action
resets lastPumpCommandTime before the publish is even attempted; the
response depends on the publish outcome.  A falsy or absent action gets
the 400 response and nothing else happens.  The success message
interpolates the action; the interpolated text is elided here. -/
def handleCommand (st : ServerState) (action : Option JVal) (now : Time)
    (publishOk : Bool) : ServerState × List JVal × ApiResponse :=
  match action with
  | some a =>
      if a.truthy then
        ({ st with lastPumpCommandTime := now }, [a],
         if publishOk then
           { status := 200, success := true, message := "Command sent." }
         else
           { status := 500, success := false,
             message := "Failed to send command via MQTT" })
      else
        (st, [],
         { status := 400, success := false,
           message := "Action is required in request body." })
  | none =>
      (st, [],
       { status := 400, success := false,
         message := "Action is required in request body." })

/-- The reading the specification describes the ingestor building, with
the or-default and numeric-parse behavior spelled out field by field:
pump-status is the payload value when present and non-empty, UNKNOWN
when absent or empty; temperature and humidity are absent when missing
and otherwise the parseFloat respectively parseInt result (NaN when the
value does not parse as a number); captured-at is the ingestion time. -/
def specReading (p : Payload) (now : Time) : Reading :=
  { soilMoisture := p.soilMoisture
    pumpStatus :=
      match p.pumpStatus with
      | none => "UNKNOWN"
      | some s => if s = emptyString then "UNKNOWN" else s
    temperature :=
      match p.temperature with
      | none => none
      | some v => some (jsParseFloat v)
    humidity :=
      match p.humidity with
      | none => none
      | some v => some (jsParseInt v)
    timestamp := some now }

/-- A successfully parsed payload carrying a present-but-empty pump
status and a present non-numeric temperature. -/
def cex7payload : Payload :=
  { soilMoisture := some 500, pumpStatus := some emptyString,
    temperature := some (JVal.jbool true), humidity := none }

/-- The cached weather snapshot (latestWeatherData, server.js lines
126-135); all fields null before the first successful fetch. -/
structure WeatherSnapshot where
  temperature : Option ℚ
  feels_like : Option ℚ
  description : Option String
  icon : Option String
  city : Option String
  humidity : Option ℚ
  wind_speed : Option ℚ
  timestamp : Option Time
deriving DecidableEq, Repr

/-- The initial latestWeatherData object. -/
def initialWeatherData : WeatherSnapshot :=
  { temperature := none, feels_like := none, description := none,
    icon := none, city := none, humidity := none, wind_speed := none,
    timestamp := none }

/-- The main block of an upstream weather response (subfields may be
missing; reading a missing subfield yields undefined, not an error). -/
structure WeatherMain where
  temp : Option ℚ
  feels_like : Option ℚ
  humidity : Option ℚ
deriving DecidableEq, Repr

/-- One entry of the weather array of an upstream response. -/
structure WeatherEntry where
  description : Option String
  icon : Option String
deriving DecidableEq, Repr

/-- The wind block of an upstream response. -/
structure WeatherWind where
  speed : Option ℚ
deriving DecidableEq, Repr

/-- The decoded body of an upstream weather response.  main and wind may
be missing whole; a missing or empty weather array makes the first-entry
access fail. -/
structure WeatherResp where
  main : Option WeatherMain
  weather : List WeatherEntry
  name : Option String
  wind : Option WeatherWind
deriving DecidableEq, Repr

/-- Building the new snapshot object from a response (server.js lines
282-291).  Reading a field of a missing main, wind, or first weather
entry raises a TypeError, modelled by none: the object literal then
never finishes evaluating and no assignment happens. -/
def buildWeatherSnapshot (d : WeatherResp) (now : Time) : Option WeatherSnapshot :=
  match d.main, d.weather, d.wind with
  | some m, w0 :: _, some wd =>
      some { temperature := m.temp, feels_like := m.feels_like,
             description := w0.description, icon := w0.icon,
             city := d.name, humidity := m.humidity,
             wind_speed := wd.speed, timestamp := some now }
  | _, _, _ => none

/-- One run of fetchWeatherData (server.js lines 271-299).  When the API
key is unset the fetch is skipped.  result is the outcome of the HTTP
get: none models a network failure (axios throws).  Any throw, from the
request or from building the snapshot, is caught, logged and swallowed,
leaving the cache unchanged; only a fully successful build replaces the
snapshot. -/
def fetchWeatherData (cache : WeatherSnapshot) (apiKeySet : Bool)
    (result : Option WeatherResp) (now : Time) : WeatherSnapshot :=
  if apiKeySet then
    match result with
    | none => cache
    | some d =>
        match buildWeatherSnapshot d now with
        | none => cache
        | some s => s
  else cache

/-- A heap of arrays of readings, for the aliasing behavior of the
history endpoint: array identities are indices below next, each mapped
to its contents. -/
structure ArrayHeap where
  arrays : ℕ → List Reading
  next : ℕ

/-- Allocate a fresh array holding the given contents. -/
def allocArray (h : ArrayHeap) (v : List Reading) : ArrayHeap × ℕ :=
  ({ arrays := fun i => if i = h.next then v else h.arrays i,
     next := h.next + 1 }, h.next)

/-- GET /api/data/history (server.js lines 244-246): the response body
is a fresh array spread-copied from the live buffer, in buffer order
(oldest first). -/
def historyEndpoint (h : ArrayHeap) (bufId : ℕ) : ArrayHeap × ℕ :=
  allocArray h (h.arrays bufId)

/-- A caller mutating one cell of an array it holds. -/
def writeCell (h : ArrayHeap) (id i : ℕ) (r : Reading) : ArrayHeap :=
  { h with arrays := fun j => if j = id then (h.arrays id).set i r else h.arrays j }

/-- A caller performing a sequence of cell writes on one array. -/
def writeCells (h : ArrayHeap) (id : ℕ) (ws : List (ℕ × Reading)) : ArrayHeap :=
  ws.foldl (fun acc w => writeCell acc id w.1 w.2) h

/-- A heap with one live array, standing for the history buffer. -/
def sampleHeap : ArrayHeap :=
  { arrays := fun _ => [initialSensorData], next := 1 }

/-- The OFF pump status string. -/
def statusOff : String := "OFF"

/-- The ON pump status string. -/
def statusOn : String := "ON"

/-- A payload whose soil moisture is a number and whose pump status is a
string, the shape the sensor channel carries. -/
def numericPayload (m : ℚ) (ps : String) (temp hum : Option JVal) : Payload :=
  { soilMoisture := some m, pumpStatus := some ps,
    temperature := temp, humidity := hum }

/-- A dry reading with the pump reported off: it would trigger the
automation if the cooldown allowed it. -/
def drySensorPayload : Payload := numericPayload 750 statusOff none none

/-- C6: a message whose payload fails to parse leaves the whole state
(latest reading, history, last command time) unchanged and publishes
nothing; the handler is a total function, so the failure never
propagates. -/
theorem malformed_message_no_effect (st : ServerState) (topic : String)
    (now : Time) (ok : Bool) :
    handleMessage st topic none now ok = (st, []) := rfl

/-- C3: on the automation path the last command time becomes the
evaluation time exactly when a command was published and the publish
succeeded; in every other case, publish failure included, it keeps its
previous value, so a later qualifying reading is not blocked by a
consumed cooldown. -/
theorem lastCommandTime_tracks_publish_success (st : ServerState) (p : Payload)
    (now : Time) (ok : Bool) :
    (handleMessage st SENSOR_DATA_TOPIC (some p) now ok).1.lastPumpCommandTime =
      if automationCmds st p now ok ≠ [] ∧ ok = true then now
      else st.lastPumpCommandTime := by
  unfold automationCmds handleMessage
  cases hcan : canSendPumpCommand now st.lastPumpCommandTime <;>
  cases hb1 : (optGT (mkReading p now).soilMoisture MOISTURE_DRY_THRESHOLD &&
      ((mkReading p now).pumpStatus == "OFF")) <;>
  cases hb2 : (optLT (mkReading p now).soilMoisture MOISTURE_WET_THRESHOLD &&
      ((mkReading p now).pumpStatus == "ON")) <;>
  cases ok <;>
  simp [hcan, hb1, hb2]

/-- C10: a manual command whose action field is present but falsy gets
the 400 required-field response; nothing is published and the state,
last command time included, is untouched. -/
theorem falsy_action_rejected (st : ServerState) (a : JVal) (now : Time)
    (ok : Bool) (h : a.truthy = false) :
    handleCommand st (some a) now ok =
      (st, [],
       { status := 400, success := false,
         message := "Action is required in request body." }) := by
  simp [handleCommand, h]

/-- Witness for C10 at the empty-string action. -/
theorem falsy_action_rejected_witness :
    (JVal.jstr emptyString).truthy = false ∧
    handleCommand initialState (some (JVal.jstr emptyString)) 1000 true =
      (initialState, [],
       { status := 400, success := false,
         message := "Action is required in request body." }) :=
  ⟨by decide, falsy_action_rejected initialState (JVal.jstr emptyString) 1000 true
    (by decide)⟩

/-- C5: a manual command with a present non-empty action string is
always published, for every prior state (so regardless of cooldown), and
the last command time is reset to now on dispatch whether or not the
publish succeeds; only the response depends on the outcome. -/
theorem manual_command_bypass (st : ServerState) (s : String) (now : Time)
    (ok : Bool) (h : s ≠ emptyString) :
    handleCommand st (some (JVal.jstr s)) now ok =
      ({ st with lastPumpCommandTime := now }, [JVal.jstr s],
       if ok then
         { status := 200, success := true, message := "Command sent." }
       else
         { status := 500, success := false,
           message := "Failed to send command via MQTT" }) := by
  have ht : (JVal.jstr s).truthy = true := by
    simp only [emptyString] at h
    simp [JVal.truthy, h]
  simp [handleCommand, ht]

/-- Witness for C5: dispatching TURN_PUMP_ON manually while the publish
fails still resets the last command time. -/
theorem manual_command_bypass_witness :
    pumpOnCommand ≠ emptyString ∧
    handleCommand initialState (some (JVal.jstr pumpOnCommand)) 5 false =
      ({ initialState with lastPumpCommandTime := 5 },
       [JVal.jstr pumpOnCommand],
       { status := 500, success := false,
         message := "Failed to send command via MQTT" }) :=
  ⟨by decide, by
    simpa using manual_command_bypass initialState pumpOnCommand 5 false (by decide)⟩

/-- When the cooldown gate is closed the handler publishes nothing and
keeps the last command time, whatever the payload. -/
theorem handleMessage_cooldown_inactive (st : ServerState)
    (parsed : Option Payload) (now : Time) (ok : Bool)
    (h : canSendPumpCommand now st.lastPumpCommandTime = false) :
    (handleMessage st SENSOR_DATA_TOPIC parsed now ok).2 = [] ∧
    (handleMessage st SENSOR_DATA_TOPIC parsed now ok).1.lastPumpCommandTime =
      st.lastPumpCommandTime := by
  cases parsed <;> simp [handleMessage, h]

/-- C2: over any sequence of readings all of whose evaluation times fall
short of the 30-second cooldown measured from the current last command
time, the automation publishes nothing and the last command time never
moves (a single reading is the singleton sequence). -/
theorem cooldown_suppresses_commands (st : ServerState)
    (events : List (Option Payload × Time × Bool))
    (h : ∀ ev ∈ events,
      ((ev.2.1 : ℚ) - (st.lastPumpCommandTime : ℚ)) / 1000 <
        PUMP_COOLDOWN_SECONDS) :
    (handleMessages st events).2 = [] ∧
    (handleMessages st events).1.lastPumpCommandTime =
      st.lastPumpCommandTime := by
  induction events generalizing st with
  | nil => simp [handleMessages]
  | cons ev evs ih =>
      have hev := h ev (List.mem_cons_self ev evs)
      have hcool : canSendPumpCommand ev.2.1 st.lastPumpCommandTime = false := by
        unfold canSendPumpCommand
        simp only [decide_eq_false_iff_not, not_le]
        exact hev
      obtain ⟨hc, hl⟩ :=
        handleMessage_cooldown_inactive st ev.1 ev.2.1 ev.2.2 hcool
      have hrest := ih (handleMessage st SENSOR_DATA_TOPIC ev.1 ev.2.1 ev.2.2).1
        (by intro e he; rw [hl]; exact h e (List.mem_cons_of_mem ev he))
      simp only [handleMessages]
      exact ⟨by simp [hc, hrest.1], by simp [hrest.2, hl]⟩

/-- Witness for C2: a dry reading one second after start is suppressed. -/
theorem cooldown_suppresses_commands_witness :
    (∀ ev ∈ [((some drySensorPayload : Option Payload), (1000 : Time), true)],
      ((ev.2.1 : ℚ) - (initialState.lastPumpCommandTime : ℚ)) / 1000 <
        PUMP_COOLDOWN_SECONDS) ∧
    ((handleMessages initialState
        [(some drySensorPayload, 1000, true)]).2 = [] ∧
      (handleMessages initialState
        [(some drySensorPayload, 1000, true)]).1.lastPumpCommandTime =
        initialState.lastPumpCommandTime) := by
  have h1 : ∀ ev ∈ [((some drySensorPayload : Option Payload), (1000 : Time), true)],
      ((ev.2.1 : ℚ) - (initialState.lastPumpCommandTime : ℚ)) / 1000 <
        PUMP_COOLDOWN_SECONDS := by
    intro ev hev
    simp only [List.mem_singleton] at hev
    subst hev
    norm_num [initialState, PUMP_COOLDOWN_SECONDS]
  exact ⟨h1, cooldown_suppresses_commands initialState
    [(some drySensorPayload, 1000, true)] h1⟩

/-- C1: with the cooldown elapsed, a numeric reading produces exactly one
TURN_PUMP_ON command when the moisture exceeds the dry threshold and the
reported pump state is OFF, exactly one TURN_PUMP_OFF command when the
moisture is below the wet threshold and the reported pump state is ON,
and no command in every other case; in particular every moisture in the
closed band between the two thresholds produces no command whatever the
reported pump state. -/
theorem automation_threshold_cases (st : ServerState) (m : ℚ) (ps : String)
    (temp hum : Option JVal) (now : Time) (ok : Bool)
    (hcool : canSendPumpCommand now st.lastPumpCommandTime = true) :
    (MOISTURE_DRY_THRESHOLD < m ∧ ps = statusOff →
      automationCmds st (numericPayload m ps temp hum) now ok =
        [JVal.jstr pumpOnCommand]) ∧
    (m < MOISTURE_WET_THRESHOLD ∧ ps = statusOn →
      automationCmds st (numericPayload m ps temp hum) now ok =
        [JVal.jstr pumpOffCommand]) ∧
    (¬(MOISTURE_DRY_THRESHOLD < m ∧ ps = statusOff) →
      ¬(m < MOISTURE_WET_THRESHOLD ∧ ps = statusOn) →
      automationCmds st (numericPayload m ps temp hum) now ok = []) ∧
    (MOISTURE_WET_THRESHOLD ≤ m → m ≤ MOISTURE_DRY_THRESHOLD →
      automationCmds st (numericPayload m ps temp hum) now ok = []) := by
  refine ⟨?_, ?_, ?_, ?_⟩
  · rintro ⟨hm, rfl⟩
    unfold automationCmds handleMessage
    have hb1 : (optGT (mkReading (numericPayload m statusOff temp hum) now).soilMoisture
        MOISTURE_DRY_THRESHOLD &&
        ((mkReading (numericPayload m statusOff temp hum) now).pumpStatus == "OFF")) = true := by
      simp [mkReading, numericPayload, optGT, statusOff, hm]
    simp [hcool, hb1]
  · rintro ⟨hm, rfl⟩
    unfold automationCmds handleMessage
    have hb1 : (optGT (mkReading (numericPayload m statusOn temp hum) now).soilMoisture
        MOISTURE_DRY_THRESHOLD &&
        ((mkReading (numericPayload m statusOn temp hum) now).pumpStatus == "OFF")) = false := by
      simp [mkReading, numericPayload, statusOn]
    have hb2 : (optLT (mkReading (numericPayload m statusOn temp hum) now).soilMoisture
        MOISTURE_WET_THRESHOLD &&
        ((mkReading (numericPayload m statusOn temp hum) now).pumpStatus == "ON")) = true := by
      simp [mkReading, numericPayload, optLT, statusOn, hm]
    simp [hcool, hb1, hb2]
  · intro h1 h2
    unfold automationCmds handleMessage
    have hb1 : (optGT (mkReading (numericPayload m ps temp hum) now).soilMoisture
        MOISTURE_DRY_THRESHOLD &&
        ((mkReading (numericPayload m ps temp hum) now).pumpStatus == "OFF")) = false := by
      by_cases hOFF : ps = statusOff
      · have hm : ¬ MOISTURE_DRY_THRESHOLD < m := fun hm => h1 ⟨hm, hOFF⟩
        subst hOFF
        simp [mkReading, numericPayload, optGT, statusOff, hm]
      · rw [statusOff] at hOFF
        by_cases hE : ps = ""
        · subst hE
          simp [mkReading, numericPayload]
        · simp [mkReading, numericPayload, hE, hOFF]
    have hb2 : (optLT (mkReading (numericPayload m ps temp hum) now).soilMoisture
        MOISTURE_WET_THRESHOLD &&
        ((mkReading (numericPayload m ps temp hum) now).pumpStatus == "ON")) = false := by
      by_cases hON : ps = statusOn
      · have hm : ¬ m < MOISTURE_WET_THRESHOLD := fun hm => h2 ⟨hm, hON⟩
        subst hON
        simp [mkReading, numericPayload, optLT, statusOn, hm]
      · rw [statusOn] at hON
        by_cases hE : ps = ""
        · subst hE
          simp [mkReading, numericPayload]
        · simp [mkReading, numericPayload, hE, hON]
    simp [hcool, hb1, hb2]
  · intro hge hle
    have hm1 : ¬ MOISTURE_DRY_THRESHOLD < m := not_lt.mpr hle
    have hm2 : ¬ m < MOISTURE_WET_THRESHOLD := not_lt.mpr hge
    unfold automationCmds handleMessage
    have hb1 : (optGT (mkReading (numericPayload m ps temp hum) now).soilMoisture
        MOISTURE_DRY_THRESHOLD &&
        ((mkReading (numericPayload m ps temp hum) now).pumpStatus == "OFF")) = false := by
      simp [mkReading, numericPayload, optGT, hm1]
    have hb2 : (optLT (mkReading (numericPayload m ps temp hum) now).soilMoisture
        MOISTURE_WET_THRESHOLD &&
        ((mkReading (numericPayload m ps temp hum) now).pumpStatus == "ON")) = false := by
      simp [mkReading, numericPayload, optLT, hm2]
    simp [hcool, hb1, hb2]

/-- Witness for C1: a dry reading with the pump off, thirty seconds
after start, fires exactly one TURN_PUMP_ON command. -/
theorem automation_threshold_cases_witness :
    canSendPumpCommand 30000 initialState.lastPumpCommandTime = true ∧
    automationCmds initialState (numericPayload 750 statusOff none none)
      30000 true = [JVal.jstr pumpOnCommand] := by
  have hc : canSendPumpCommand 30000 initialState.lastPumpCommandTime = true := by
    norm_num [canSendPumpCommand, initialState, PUMP_COOLDOWN_SECONDS]
  exact ⟨hc, (automation_threshold_cases initialState 750 statusOff none none
    30000 true hc).1 ⟨by norm_num [MOISTURE_DRY_THRESHOLD], rfl⟩⟩

/-- Recording one more reading is the fold step of the history. -/
theorem historyAfter_append (l : List Reading) (r : Reading) :
    historyAfter (l ++ [r]) = recordHistory (historyAfter l) r := by
  simp [historyAfter, List.foldl_append]

/-- The history after any sequence of readings is the suffix of the last
200 of them, in arrival order. -/
theorem historyAfter_eq_drop (rs : List Reading) :
    historyAfter rs = rs.drop (rs.length - 200) := by
  induction rs using List.reverseRecOn with
  | nil => simp [historyAfter]
  | append_singleton l a ih =>
      rw [historyAfter_append, ih, recordHistory]
      by_cases hk : l.length ≤ 199
      · have h0 : l.length - 200 = 0 := by omega
        have hc : ¬ 200 < l.length + 1 := by omega
        have hd : l.length - 199 = 0 := by omega
        simp [h0, hc, hd]
      · push_neg at hk
        have hlen : (l.drop (l.length - 200)).length = 200 := by
          rw [List.length_drop]
          omega
        have hcond : 200 < (l.drop (l.length - 200) ++ [a]).length := by
          simp only [List.length_append, List.length_singleton, hlen]
          omega
        rw [if_pos hcond, ← List.drop_one, List.drop_append_eq_append_drop,
          List.drop_drop, hlen]
        have h3 : (l ++ [a]).length - 200 = (l.length - 200) + 1 := by
          simp only [List.length_append, List.length_singleton]
          omega
        rw [h3, List.drop_append_eq_append_drop]
        have h4 : (l.length - 200) + 1 - l.length = 0 := by omega
        have h5 : (1 : ℕ) - 200 = 0 := by omega
        rw [h4, h5]

/-- C4: starting from the empty buffer, after any sequence of recorded
readings the history has length min(N, 200) and its contents are exactly
the last 200 recorded readings in arrival order, oldest first (so on
overflow the oldest entry was evicted). -/
theorem history_buffer_bounded_fifo (rs : List Reading) :
    (historyAfter rs).length = min rs.length 200 ∧
    historyAfter rs = rs.drop (rs.length - 200) := by
  refine ⟨?_, historyAfter_eq_drop rs⟩
  rw [historyAfter_eq_drop, List.length_drop]
  omega

/-- C7 counterexample: for the successfully parsed payload carrying a
present-but-empty pump status and a present boolean temperature, the
stored reading has pump status UNKNOWN (not the present payload value)
and temperature NaN (not absent), so the claimed field construction
fails as stated. -/
theorem reading_construction_counterexample :
    cex7payload.pumpStatus = some emptyString ∧
    (mkReading cex7payload 0).pumpStatus = "UNKNOWN" ∧
    (mkReading cex7payload 0).pumpStatus ≠ emptyString ∧
    cex7payload.temperature = some (JVal.jbool true) ∧
    (mkReading cex7payload 0).temperature = some JNum.nan ∧
    (mkReading cex7payload 0).temperature ≠ none := by
  refine ⟨rfl, rfl, by decide, rfl, rfl, by decide⟩

/-- C7 (amended): the reading built by the ingestor agrees field by field
with the specification-style construction: pump status equals the
payload value only when present and non-empty and is UNKNOWN when absent
or empty; temperature and humidity are absent when missing and otherwise
the parseFloat respectively parseInt result, which is NaN for a present
non-numeric value; captured-at is the ingestion time; soil moisture is
stored as received. -/
theorem reading_construction_amended (p : Payload) (now : Time) :
    mkReading p now = specReading p now := by
  rcases p with ⟨sm, ps, te, hu⟩
  cases ps with
  | none => cases te <;> cases hu <;> rfl
  | some s =>
      by_cases h : s = ""
      · subst h
        cases te <;> cases hu <;> rfl
      · have hb : (s == "") = false := by simp [h]
        cases te <;> cases hu <;>
          simp [mkReading, specReading, hb, emptyString, h]

/-- Writing a cell of one array leaves every other array unchanged. -/
theorem writeCell_preserves_other (h : ArrayHeap) (id i : ℕ) (r : Reading)
    (j : ℕ) (hj : j ≠ id) : (writeCell h id i r).arrays j = h.arrays j := by
  simp [writeCell, hj]

/-- A sequence of cell writes on one array leaves every other array
unchanged. -/
theorem writeCells_preserves_other (ws : List (ℕ × Reading)) (h : ArrayHeap)
    (id j : ℕ) (hj : j ≠ id) : (writeCells h id ws).arrays j = h.arrays j := by
  induction ws generalizing h with
  | nil => rfl
  | cons w ws ih =>
      have hstep : writeCells h id (w :: ws) =
          writeCells (writeCell h id w.1 w.2) id ws := rfl
      rw [hstep, ih, writeCell_preserves_other h id w.1 w.2 j hj]

/-- C8: the history endpoint answers with a freshly allocated array whose
contents equal the live buffer in order (oldest first), whose identity
differs from the buffer, and no sequence of cell writes a caller
performs on the returned array changes the live buffer. -/
theorem history_snapshot_unaliased (h : ArrayHeap) (bufId : ℕ)
    (hvalid : bufId < h.next) :
    (historyEndpoint h bufId).1.arrays (historyEndpoint h bufId).2 =
      h.arrays bufId ∧
    (historyEndpoint h bufId).2 ≠ bufId ∧
    ∀ ws : List (ℕ × Reading),
      (writeCells (historyEndpoint h bufId).1 (historyEndpoint h bufId).2
        ws).arrays bufId = h.arrays bufId := by
  have hne : bufId ≠ h.next := by omega
  refine ⟨by simp [historyEndpoint, allocArray], ?_, ?_⟩
  · simp only [historyEndpoint, allocArray]
    omega
  · intro ws
    have hw := writeCells_preserves_other ws (historyEndpoint h bufId).1
      (historyEndpoint h bufId).2 bufId
      (by simp only [historyEndpoint, allocArray]; omega)
    rw [hw]
    simp [historyEndpoint, allocArray, hne]

/-- Witness for C8 on a one-array heap: the returned snapshot equals the
buffer, is a different array, and a write through it leaves the buffer
intact. -/
theorem history_snapshot_unaliased_witness :
    0 < sampleHeap.next ∧
    ((historyEndpoint sampleHeap 0).1.arrays (historyEndpoint sampleHeap 0).2 =
        sampleHeap.arrays 0 ∧
      (historyEndpoint sampleHeap 0).2 ≠ 0 ∧
      (writeCells (historyEndpoint sampleHeap 0).1
          (historyEndpoint sampleHeap 0).2
          [(0, initialSensorData)]).arrays 0 = sampleHeap.arrays 0) := by
  have hv : 0 < sampleHeap.next := by decide
  have ht := history_snapshot_unaliased sampleHeap 0 hv
  exact ⟨hv, ht.1, ht.2.1, ht.2.2 [(0, initialSensorData)]⟩

/-- C9: a weather refresh that fails, either because the request throws
(network error) or because the response lacks the blocks the snapshot
constructor reads (malformed response), leaves the cached snapshot
exactly as it was; the model is a total function, the failure being
caught and only logged. -/
theorem weather_failure_preserves_snapshot (cache : WeatherSnapshot)
    (keySet : Bool) (result : Option WeatherResp) (now : Time)
    (h : result = none ∨
      ∃ d, result = some d ∧ buildWeatherSnapshot d now = none) :
    fetchWeatherData cache keySet result now = cache := by
  rcases h with rfl | ⟨d, rfl, hb⟩
  · cases keySet <;> simp [fetchWeatherData]
  · cases keySet <;> simp [fetchWeatherData, hb]

/-- Witness for C9 at a network failure with an empty cache. -/
theorem weather_failure_preserves_snapshot_witness :
    ((none : Option WeatherResp) = none ∨
      ∃ d, (none : Option WeatherResp) = some d ∧
        buildWeatherSnapshot d 0 = none) ∧
    fetchWeatherData initialWeatherData true none 0 = initialWeatherData :=
  ⟨Or.inl rfl,
    weather_failure_preserves_snapshot initialWeatherData true none 0
      (Or.inl rfl)⟩
